import Mathlib

/-!
Verification of the lock-acquisition and timeout-coordination core of
django-pglock (src/pglock/core.py) via a shallow embedding.

The embedding translates the Python source function-by-function:

* Python exceptions become the `PyExc` inductive.  Per the session
  capability contract, the backend exposes one distinguishable error
  class for lock-wait failures: Django's `OperationalError` (the class
  the source catches around its lock statements); every other exception
  class is `otherError` / the dedicated validation constructors.
* `datetime.timedelta` values are carried as an integer number of
  microseconds (the resolution of `timedelta`); `int`/`float` second
  arguments are carried as their exact microsecond value.
* The thread-local `_timeout` slot and the session-level `lock_timeout`
  setting become the explicit state `LTState`.
* Database statements are not executed; instead each operation takes the
  backend's response (`ExecResult`) as a parameter and records the SQL it
  would have issued, whether a timeout scope and a savepoint were
  installed, and the errored state of the enclosing transaction
  afterwards (savepoint rollback restores an errored transaction, the
  documented semantics of a recoverable sub-transaction).
* `hashlib.sha256` is implemented from FIPS 180-4 over byte lists so the
  string lock-id path is fully executable; it is validated below against
  the repository's own test vector for `advisory_id("hello")`.
-/

deriving instance DecidableEq for Except

namespace Pglock

/-- Python exception model.  `operationalError` is Django's
`django.db.utils.OperationalError`, the class the source distinguishes as
"the lock wait failed" around its acquire statements; `otherError` stands
for every other backend exception class (`ProgrammingError`, ...). -/
inductive PyExc
  | operationalError (msg : String)
  | valueError (msg : String)
  | typeError (msg : String)
  | runtimeError (msg : String)
  | otherError (msg : String)
deriving DecidableEq, Repr

/-- Whether an exception is of class `OperationalError` (the class caught
by `except OperationalError` in the source). -/
def PyExc.isOperational : PyExc → Bool
  | .operationalError _ => true
  | _ => false

/-- The `timeout` argument as supplied by the caller.  `num` is an
`int`/`float` number of seconds and `td` a `datetime.timedelta`, both
carried as exact microseconds; `infinite` is Python `None`; `unset` is
the `_unset` sentinel default; `badType` is any other object. -/
inductive TimeoutArg
  | unset
  | infinite
  | num (usec : Int)
  | td (usec : Int)
  | badType
deriving DecidableEq, Repr

/-- The value of `self.timeout` after `_cast_timeout`: the sentinel, `None`,
or a `timedelta` in microseconds. -/
inductive Timeout
  | unset
  | infinite
  | td (usec : Int)
deriving DecidableEq, Repr

/-- `_cast_timeout` (core.py lines 82-93): numbers become timedeltas, wrong
types raise `TypeError`, and any timedelta below one millisecond collapses
to the zero timedelta. -/
def _cast_timeout : TimeoutArg → Except PyExc Timeout
  | .unset => .ok .unset
  | .infinite => .ok .infinite
  | .num u => .ok (if u < 1000 then .td 0 else .td u)
  | .td u => .ok (if u < 1000 then .td 0 else .td u)
  | .badType => .error (.typeError "Must supply int, float, or timedelta to pglock.timeout")

/-- `isinstance(self.timeout, dt.timedelta) and not self.timeout`: the cast
timeout is the zero timedelta. -/
def Timeout.isZero : Timeout → Bool
  | .td u => decide (u = 0)
  | _ => false

/-- The cast timeout is the `_unset` sentinel. -/
def Timeout.isUnset : Timeout → Bool
  | .unset => true
  | _ => false

/-- State owned by one thread and its session: the thread-local `_timeout`
slot (`none` while the attribute does not exist yet, otherwise a value that
is either Python `None` or a millisecond count) and the session-level
`lock_timeout` setting (`none` models the NULL/default setting). -/
structure LTState where
  tl : Option (Option Int)
  config : Option Int
deriving DecidableEq, Repr

/-- The millisecond value `lock_timeout` installs for a given argument, or
the validation error it raises (core.py lines 139-159): `_unset` without
timedelta kwargs raises `ValueError`; `None` resets to an infinite timeout
(millisecond value 0); a cast timeout that collapsed to zero (anything
below one millisecond) raises `ValueError`; otherwise
`int(timeout.total_seconds() * 1000)` truncates to whole milliseconds. -/
def lock_timeout_ms (timeout : TimeoutArg) : Except PyExc Int :=
  match timeout with
  | .unset => .error (.valueError "Must supply a value to pglock.timeout")
  | .infinite => .ok 0
  | arg =>
    match _cast_timeout arg with
    | .error e => .error e
    | .ok (.td u) =>
      if u = 0 then
        .error (.valueError
          "Must supply value greater than a millisecond to pglock.timeout or use None to reset the timeout.")
      else .ok (u.tdiv 1000)
    | .ok _ => .ok 0

/-- Entering the `lock_timeout` context manager (core.py lines 139-164):
validate the argument, initialise the thread-local slot if absent, save the
old value, store the new millisecond value and issue
`SELECT set_config('lock_timeout', value, false)`.  Returns the saved old
value together with the new state. -/
def lock_timeout_enter (timeout : TimeoutArg) (s : LTState) :
    Except PyExc (Option Int × LTState) :=
  match lock_timeout_ms timeout with
  | .error e => .error e
  | .ok ms =>
    let old : Option Int := s.tl.getD none
    .ok (old, { tl := some (some ms), config := some ms })

/-- Leaving the `lock_timeout` context manager (core.py lines 165-173):
restore the thread-local slot to the saved value and, unless the session's
transaction is in an errored state, issue the restoring `set_config` (NULL
when the saved value is `None`). -/
def lock_timeout_exit (old : Option Int) (errored : Bool) (s : LTState) : LTState :=
  let s1 : LTState := { s with tl := some old }
  if errored then s1
  else
    match old with
    | none => { s1 with config := none }
    | some v => { s1 with config := some v }

/-- A well-nested program of `lock_timeout` scopes on one thread/session:
`scope t inner next` enters a scope with argument `t`, runs `inner` inside
it, exits, then runs `next`. -/
inductive Nest
  | done
  | scope (timeout : TimeoutArg) (inner : Nest) (next : Nest)

/-- Run a well-nested program of `lock_timeout` scopes, with every exit
taken in a non-errored transaction state. -/
def runNest : Nest → LTState → Except PyExc LTState
  | .done, s => .ok s
  | .scope t inner next, s =>
    match lock_timeout_enter t s with
    | .error e => .error e
    | .ok (old, s1) =>
      match runNest inner s1 with
      | .error e => .error e
      | .ok s2 => runNest next (lock_timeout_exit old false s2)

/-- The value the thread-local bookkeeping says is installed at session
level: a millisecond count when a scope is active, otherwise the default. -/
def LTState.tracked (s : LTState) : Option Int :=
  match s.tl with
  | some (some v) => some v
  | _ => none

/-- The session setting agrees with the thread-local bookkeeping — true of
a fresh session and preserved by every scope. -/
def LTState.consistent (s : LTState) : Prop := s.config = s.tracked

/-! ### Lock identifiers: SHA-256 and `advisory_id` -/

/-- Reduce modulo 2^32 (all SHA-256 words are 32-bit). -/
def w32 (n : Nat) : Nat := n % 4294967296

/-- Rotate a 32-bit word right by `n` bits. -/
def rotr32 (x n : Nat) : Nat := (x / 2 ^ n) + (x % 2 ^ n) * 2 ^ (32 - n)

/-- SHA-256 choice function `Ch(e,f,g)`. -/
def shaCh (e f g : Nat) : Nat := (e &&& f) ^^^ ((4294967295 - w32 e) &&& g)

/-- SHA-256 majority function `Maj(a,b,c)`. -/
def shaMaj (a b c : Nat) : Nat := (a &&& b) ^^^ (a &&& c) ^^^ (b &&& c)

/-- SHA-256 `Σ0`. -/
def bigSigma0 (a : Nat) : Nat := rotr32 a 2 ^^^ rotr32 a 13 ^^^ rotr32 a 22

/-- SHA-256 `Σ1`. -/
def bigSigma1 (e : Nat) : Nat := rotr32 e 6 ^^^ rotr32 e 11 ^^^ rotr32 e 25

/-- SHA-256 `σ0`. -/
def smallSigma0 (x : Nat) : Nat := rotr32 x 7 ^^^ rotr32 x 18 ^^^ (x / 2 ^ 3)

/-- SHA-256 `σ1`. -/
def smallSigma1 (x : Nat) : Nat := rotr32 x 17 ^^^ rotr32 x 19 ^^^ (x / 2 ^ 10)

/-- The 64 SHA-256 round constants (FIPS 180-4 section 4.2.2, written in
decimal). -/
def shaK : List Nat :=
  [1116352408, 1899447441, 3049323471, 3921009573, 961987163,
   1508970993, 2453635748, 2870763221, 3624381080, 310598401,
   607225278, 1426881987, 1925078388, 2162078206, 2614888103,
   3248222580, 3835390401, 4022224774, 264347078, 604807628,
   770255983, 1249150122, 1555081692, 1996064986, 2554220882,
   2821834349, 2952996808, 3210313671, 3336571891, 3584528711,
   113926993, 338241895, 666307205, 773529912, 1294757372,
   1396182291, 1695183700, 1986661051, 2177026350, 2456956037,
   2730485921, 2820302411, 3259730800, 3345764771, 3516065817,
   3600352804, 4094571909, 275423344, 430227734, 506948616,
   659060556, 883997877, 958139571, 1322822218, 1537002063,
   1747873779, 1955562222, 2024104815, 2227730452, 2361852424,
   2428436474, 2756734187, 3204031479, 3329325298]

/-- The eight SHA-256 working registers. -/
structure ShaRegs where
  a : Nat
  b : Nat
  c : Nat
  d : Nat
  e : Nat
  f : Nat
  g : Nat
  h : Nat
deriving DecidableEq, Repr

/-- The SHA-256 initial hash value (FIPS 180-4 section 5.3.3, in
decimal). -/
def shaInit : ShaRegs :=
  ⟨1779033703, 3144134277, 1013904242, 2773480762,
   1359893119, 2600822924, 528734635, 1541459225⟩

/-- One SHA-256 compression round for a (constant, schedule-word) pair. -/
def shaStep (r : ShaRegs) (kw : Nat × Nat) : ShaRegs :=
  let t1 := w32 (r.h + bigSigma1 r.e + shaCh r.e r.f r.g + kw.1 + kw.2)
  let t2 := w32 (bigSigma0 r.a + shaMaj r.a r.b r.c)
  ⟨w32 (t1 + t2), r.a, r.b, r.c, w32 (r.d + t1), r.e, r.f, r.g⟩

/-- Extend a 16-word block to the 64-word message schedule (`fuel` = 48). -/
def extendW (w : List Nat) : Nat → List Nat
  | 0 => w
  | n + 1 =>
    let i := w.length
    let nw := w32 (smallSigma1 (w.getD (i - 2) 0) + w.getD (i - 7) 0 +
      smallSigma0 (w.getD (i - 15) 0) + w.getD (i - 16) 0)
    extendW (w ++ [nw]) n

/-- Process one 16-word chunk of the padded message. -/
def processChunk (h : ShaRegs) (ws : List Nat) : ShaRegs :=
  let r := (shaK.zip (extendW ws 48)).foldl shaStep h
  ⟨w32 (h.a + r.a), w32 (h.b + r.b), w32 (h.c + r.c), w32 (h.d + r.d),
   w32 (h.e + r.e), w32 (h.f + r.f), w32 (h.g + r.g), w32 (h.h + r.h)⟩

/-- Big-endian 32-bit words from a byte list (length a multiple of 4). -/
def toWords32 : List Nat → List Nat
  | a :: b :: c :: d :: rest => (((a * 256 + b) * 256 + c) * 256 + d) :: toWords32 rest
  | _ => []

/-- Split a word list into 16-word chunks (length a multiple of 16). -/
def chunk16 : List Nat → List (List Nat)
  | w0 :: w1 :: w2 :: w3 :: w4 :: w5 :: w6 :: w7 ::
    w8 :: w9 :: w10 :: w11 :: w12 :: w13 :: w14 :: w15 :: rest =>
    [w0, w1, w2, w3, w4, w5, w6, w7, w8, w9, w10, w11, w12, w13, w14, w15] :: chunk16 rest
  | _ => []

/-- The eight big-endian bytes of a 64-bit number. -/
def bytesBE8 (n : Nat) : List Nat :=
  [n / 2 ^ 56 % 256, n / 2 ^ 48 % 256, n / 2 ^ 40 % 256, n / 2 ^ 32 % 256,
   n / 2 ^ 24 % 256, n / 2 ^ 16 % 256, n / 2 ^ 8 % 256, n % 256]

/-- The four big-endian bytes of a 32-bit word. -/
def bytesBE4 (n : Nat) : List Nat :=
  [n / 2 ^ 24 % 256, n / 2 ^ 16 % 256, n / 2 ^ 8 % 256, n % 256]

/-- SHA-256 padding: append 0x80, zeros to 56 mod 64, then the bit length
as eight big-endian bytes. -/
def shaPad (msg : List Nat) : List Nat :=
  msg ++ [128] ++ List.replicate ((119 - msg.length % 64) % 64) 0 ++ bytesBE8 (msg.length * 8)

/-- SHA-256 of a byte list, as its 32 digest bytes (FIPS 180-4; the model
of `hashlib.sha256(...).digest()`). -/
def sha256Bytes (msg : List Nat) : List Nat :=
  let final := (chunk16 (toWords32 (shaPad msg))).foldl processChunk shaInit
  bytesBE4 final.a ++ bytesBE4 final.b ++ bytesBE4 final.c ++ bytesBE4 final.d ++
    bytesBE4 final.e ++ bytesBE4 final.f ++ bytesBE4 final.g ++ bytesBE4 final.h

/-- UTF-8 encoding of one code point. -/
def utf8CharBytes (c : Nat) : List Nat :=
  if c < 128 then [c]
  else if c < 2048 then [192 + c / 64, 128 + c % 64]
  else if c < 65536 then [224 + c / 4096, 128 + c / 64 % 64, 128 + c % 64]
  else [240 + c / 262144, 128 + c / 4096 % 64, 128 + c / 64 % 64, 128 + c % 64]

/-- UTF-8 bytes of a string (the model of `str.encode("utf-8")`). -/
def utf8Bytes (s : String) : List Nat :=
  (s.data.map fun c => utf8CharBytes c.toNat).flatten

/-- `int.from_bytes(bs, "little", signed=True)`. -/
def intFromBytesLittleSigned (bs : List Nat) : Int :=
  let u : Nat := bs.foldr (fun b acc => b + 256 * acc) 0
  if u < 2 ^ (8 * bs.length - 1) then (u : Int) else (u : Int) - 2 ^ (8 * bs.length)

/-- A lock ID argument: a Python `int`, `str`, or any other object. -/
inductive LockId
  | int (i : Int)
  | str (s : String)
  | badType
deriving DecidableEq, Repr

/-- Python truthiness of a lock ID (`not self.lock_id`); objects of other
types are modelled as truthy. -/
def LockId.falsy : LockId → Bool
  | .int i => decide (i = 0)
  | .str s => decide (s = "")
  | .badType => false

/-- `_cast_lock_id` (core.py lines 176-185): strings hash through SHA-256,
first 8 digest bytes, little-endian signed; integers pass through; other
types raise `TypeError`. -/
def _cast_lock_id : LockId → Except PyExc Int
  | .str s => .ok (intFromBytesLittleSigned ((sha256Bytes (utf8Bytes s)).take 8))
  | .int i => .ok i
  | .badType => .error (.typeError "Lock ID is not a string or int")

/-- `advisory_id` (core.py lines 188-200): `(lock_id >> 32,
lock_id & 0xFFFFFFFF)`.  Python's `>>` on `int` is floor division by the
power of two (`Int.fdiv`) and `& 0xFFFFFFFF` is the non-negative residue
modulo 2^32 (`Int.emod`). -/
def advisory_id (lock_id : LockId) : Except PyExc (Int × Int) :=
  match _cast_lock_id lock_id with
  | .error e => .error e
  | .ok id => .ok (Int.fdiv id 4294967296, Int.emod id 4294967296)

/-! ### Advisory locks -/

/-- The three side-effect policies for lock acquisition. -/
inductive SE
  | Return
  | Raise
  | Skip
deriving DecidableEq, Repr

/-- The `side_effect` argument as supplied: the Python `None` default, a
`SideEffect` class or instance (both normalise to the class), or any
invalid value. -/
inductive SEArg
  | unset
  | cls (se : SE)
  | invalid
deriving DecidableEq, Repr

/-- Arguments of `pglock.advisory(...)`. -/
structure AdvisoryArgs where
  lock_id : Option LockId
  shared : Bool
  xact : Bool
  timeout : TimeoutArg
  side_effect : SEArg
deriving DecidableEq, Repr

/-- Python truthiness of an optional lock ID. -/
def lockIdFalsy : Option LockId → Bool
  | none => true
  | some l => l.falsy

/-- `_process_runtime_parameters` (core.py lines 283-318) with `hasFunc`
saying whether a function is wrapped (decorator mode): infer the lock ID
from the wrapped function's module path when absent, default the side
effect (`Raise` for a decorator, `Return` for a context manager), then
validate: a falsy lock ID, an invalid side effect, `Skip` without a
wrapped function, and `Return` with one all raise `ValueError`. -/
def _process_runtime_parameters (a : AdvisoryArgs) (hasFunc : Bool) :
    Except PyExc (LockId × SE) :=
  let lid : Option LockId :=
    if lockIdFalsy a.lock_id && hasFunc then some (.str "tests.module.func") else a.lock_id
  let se : Option SE :=
    match a.side_effect with
    | .unset => some (if hasFunc then .Raise else .Return)
    | .cls s => some s
    | .invalid => none
  match lid with
  | none => .error (.valueError "Must supply a lock ID as the first argument.")
  | some l =>
    if l.falsy then .error (.valueError "Must supply a lock ID as the first argument.")
    else
      match se with
      | none =>
        .error (.valueError "side_effect must be one of pglock.Return, pglock.Raise, or pglock.Skip")
      | some s =>
        if !hasFunc && s = .Skip then
          .error (.valueError "Cannot use pglock.Skip in a context manager.")
        else if hasFunc && s = .Return then
          .error (.valueError "Cannot use pglock.Return in a @pglock.advisory() decorator.")
        else .ok (l, s)

/-- The name of the acquisition function (core.py lines 326-330):
`pg[_try]_advisory[_xact]_lock[_shared]`. -/
def advisory_acquire_sql (nowait xact shared : Bool) : String :=
  "pg" ++ (if nowait then "_try" else "") ++ "_advisory" ++
    (if xact then "_xact" else "") ++ "_lock" ++ (if shared then "_shared" else "")

/-- The backend's response to the acquire statement: success carrying the
boolean a `pg_try_...` call returns, or an exception of some class. -/
inductive ExecResult
  | ok (fetch : Bool)
  | err (e : PyExc)
deriving DecidableEq, Repr

/-- What one acquisition did: its outcome, the statement it issued (if it
got that far), whether the non-blocking variant was chosen, whether a
`lock_timeout` scope and a savepoint were installed around the statement,
and whether the enclosing transaction is in an errored state afterwards
(assuming it was usable before; a savepoint rollback restores it). -/
structure AcquireTrace where
  result : Except PyExc Bool
  sqlUsed : Option String := none
  nowait : Bool := false
  timeoutScope : Bool := false
  savepoint : Bool := false
  erroredAfter : Bool := false
deriving DecidableEq, Repr

/-- `advisory.acquire` (core.py lines 320-356) together with the `__init__`
cast of the timeout: validate, build the statement, install a
`lock_timeout` scope when an explicit timeout was supplied and the attempt
is not non-blocking, install a savepoint only inside that scope when the
policy is not `Raise` and a transaction is active, execute, convert an
`OperationalError` to `False` unless the policy is `Raise`, and raise on a
falsy non-blocking status under `Raise`. -/
def advisory_acquire (a : AdvisoryArgs) (hasFunc : Bool) (inTx : Bool)
    (backend : ExecResult) : AcquireTrace :=
  match _cast_timeout a.timeout with
  | .error e => { result := .error e }
  | .ok timeout =>
    let nowait := timeout.isZero
    match _process_runtime_parameters a hasFunc with
    | .error e => { result := .error e, nowait := nowait }
    | .ok (lid, se) =>
      if a.xact && !inTx then
        { result := .error (.runtimeError "Must be in a transaction to use xact=True."),
          nowait := nowait }
      else
        match _cast_lock_id lid with
        | .error e => { result := .error e, nowait := nowait }
        | .ok intId =>
          let sql := "SELECT " ++ advisory_acquire_sql nowait a.xact a.shared ++
            "(" ++ toString intId ++ ")"
          let scope := !timeout.isUnset && !nowait
          let sp := scope && !(se = .Raise) && inTx
          match backend with
          | .ok fetch =>
            let acquired := if nowait then fetch else true
            if !acquired && se = .Raise then
              { result := .error (.operationalError "Could not acquire lock"),
                sqlUsed := some sql, nowait := nowait, timeoutScope := scope,
                savepoint := sp, erroredAfter := false }
            else
              { result := .ok acquired, sqlUsed := some sql, nowait := nowait,
                timeoutScope := scope, savepoint := sp, erroredAfter := false }
          | .err e =>
            let erroredAfter := inTx && !sp
            if e.isOperational && !(se = .Raise) then
              { result := .ok false, sqlUsed := some sql, nowait := nowait,
                timeoutScope := scope, savepoint := sp, erroredAfter := erroredAfter }
            else
              { result := .error e, sqlUsed := some sql, nowait := nowait,
                timeoutScope := scope, savepoint := sp, erroredAfter := erroredAfter }

/-- The release statement (core.py lines 362-364):
`SELECT pg_advisory_unlock[_shared](id)`. -/
def advisory_release_sql (shared : Bool) (intId : Int) : String :=
  "SELECT pg_advisory_unlock" ++ (if shared then "_shared" else "") ++
    "(" ++ toString intId ++ ")"

/-- `advisory.release` (core.py lines 358-364): illegal on a
transaction-scoped handle, otherwise returns the release statement
issued. -/
def advisory_release (a : AdvisoryArgs) (intId : Int) : Except PyExc String :=
  if a.xact then
    .error (.runtimeError "Advisory locks with xact=True cannot be manually released.")
  else .ok (advisory_release_sql a.shared intId)

/-- `advisory.__enter__` (core.py lines 366-390): a transaction-scoped lock
may not already be inside a transaction and opens its own durable one;
then `acquire` runs and its status is returned. -/
def advisory_enter (a : AdvisoryArgs) (hasFunc : Bool) (inTx : Bool)
    (backend : ExecResult) : Except PyExc Bool :=
  if a.xact && inTx then
    .error (.runtimeError "Advisory locks with xact=True cannot run inside a transaction.")
  else
    (advisory_acquire a hasFunc (inTx || a.xact) backend).result

/-- How the code protected by the scope finished. -/
inductive BodyOutcome
  | normal
  | raises (e : PyExc)
deriving DecidableEq, Repr

/-- What one `with pglock.advisory(...)` scope did: `error e` when
`__enter__` raised (the body never ran), `ok b` when the body ran and
finished with outcome `b` (an exceptional outcome is re-raised after
`__exit__`); plus every release statement issued on exit. -/
structure ScopeTrace where
  outcome : Except PyExc BodyOutcome
  releaseCalls : List String
deriving DecidableEq, Repr

/-- One full `with pglock.advisory(...)` scope (core.py lines 366-402):
`__enter__`, the body, then `__exit__`, which unwinds the savepoint and
transaction contexts and — on the normal and the exceptional path alike —
releases the lock exactly when it was acquired and is not
transaction-scoped. -/
def advisory_scope (a : AdvisoryArgs) (inTx : Bool) (backend : ExecResult)
    (body : BodyOutcome) : ScopeTrace :=
  match advisory_enter a false inTx backend with
  | .error e => { outcome := .error e, releaseCalls := [] }
  | .ok acquired =>
    let rels : List String :=
      if acquired && !a.xact then
        match _process_runtime_parameters a false with
        | .ok (l, _) =>
          match _cast_lock_id l with
          | .ok intId => [advisory_release_sql a.shared intId]
          | .error _ => []
        | .error _ => []
      else []
    { outcome := .ok body, releaseCalls := rels }

/-- `advisory.__call__`'s wrapper (core.py lines 272-281) over a wrapped
function returning `v`: re-enter the context manager, then run the wrapped
function only when the lock was acquired or the side effect is not `Skip`;
otherwise the call evaluates to `None`. -/
def advisory_decorated {α : Type} (a : AdvisoryArgs) (inTx : Bool)
    (backend : ExecResult) (v : α) : Except PyExc (Option α) :=
  match advisory_enter a true inTx backend with
  | .error e => .error e
  | .ok acquired =>
    match _process_runtime_parameters a true with
    | .error e => .error e
    | .ok (_, se) =>
      if acquired || !(se = .Skip) then .ok (some v) else .ok none

/-! ### Table locks: `pglock.model` -/

/-- Arguments of `pglock.model(...)`: the resolved `db_table` names, the
lock mode, the timeout and the side effect. -/
structure ModelArgs where
  tables : List String
  mode : String
  timeout : TimeoutArg
  side_effect : SEArg
deriving DecidableEq, Repr

/-- The statement `pglock.model` builds (core.py lines 452-454):
`LOCK TABLE "t1", "t2" IN mode MODE [NOWAIT]`. -/
def model_sql (tables : List String) (mode : String) (nowait : Bool) : String :=
  "LOCK TABLE " ++ String.intercalate ", " (tables.map fun t => "\x22" ++ t ++ "\x22") ++
    " IN " ++ mode ++ " MODE " ++ (if nowait then "NOWAIT" else "")

/-- The normalised side effect of `pglock.model` (core.py line 439 plus
the `Return` default argument): classes and instances normalise to the
class; any other value fails the membership check. -/
def model_side_effect (se : SEArg) : Option SE :=
  match se with
  | .unset => some .Return
  | .cls s => some s
  | .invalid => none

/-- `pglock.model` (core.py lines 405-477): cast the timeout, normalise the
side effect (only `Return`/`Raise` are legal), require at least one model
and an active transaction; under `Return` always wrap in a savepoint;
install a `lock_timeout` scope when an explicit timeout was supplied and
the attempt is not `NOWAIT`; convert an `OperationalError` to `False`
under `Return` and re-raise it under `Raise`. -/
def pglock_model (a : ModelArgs) (inTx : Bool) (backend : ExecResult) : AcquireTrace :=
  match _cast_timeout a.timeout with
  | .error e => { result := .error e }
  | .ok timeout =>
    match model_side_effect a.side_effect with
    | none => { result := .error (.valueError "side_effect must be one of pglock.Return or pglock.Raise") }
    | some se =>
      if se = .Skip then
        { result := .error (.valueError "side_effect must be one of pglock.Return or pglock.Raise") }
      else if a.tables = [] then
        { result := .error (.valueError "Must supply at least one model to pglock.model().") }
      else if !inTx then
        { result := .error (.runtimeError "Database must be in a transaction to lock models.") }
      else
        let nowait := timeout.isZero
        let sql := model_sql a.tables a.mode nowait
        let sp := se = .Return
        let scope := !timeout.isUnset && !nowait
        match backend with
        | .ok _ =>
          { result := .ok true, sqlUsed := some sql, nowait := nowait,
            timeoutScope := scope, savepoint := sp, erroredAfter := false }
        | .err e =>
          let erroredAfter := !sp
          if e.isOperational then
            if se = .Return then
              { result := .ok false, sqlUsed := some sql, nowait := nowait,
                timeoutScope := scope, savepoint := sp, erroredAfter := erroredAfter }
            else
              { result := .error e, sqlUsed := some sql, nowait := nowait,
                timeoutScope := scope, savepoint := sp, erroredAfter := erroredAfter }
          else
            { result := .error e, sqlUsed := some sql, nowait := nowait,
              timeoutScope := scope, savepoint := sp, erroredAfter := erroredAfter }

/-! ### The prioritize watcher -/

/-- The outcome of one background firing of the corrective action. -/
inductive FireOutcome
  | ok
  | raises (e : PyExc)
deriving DecidableEq, Repr

/-- `_PeriodicTimer.run` (core.py lines 490-496): fire the action until
cancelled; the loop stops at the first exception, which is stored in the
`exc` slot.  The argument lists the outcomes of the firings that happen
before cancellation. -/
def periodic_timer_exc : List FireOutcome → Option PyExc
  | [] => none
  | .ok :: rest => periodic_timer_exc rest
  | .raises e :: _ => some e

/-- `_PeriodicTimer.cancel` (core.py lines 498-502): cancel the timer, then
re-raise a stored exception as `RuntimeError("Exception raised in side
effect")` chained from it. -/
def periodic_timer_cancel (exc : Option PyExc) : Except PyExc Unit :=
  match exc with
  | some _ => .error (.runtimeError "Exception raised in side effect")
  | none => .ok ()

/-- Model of Python's standard-library `threading.Timer`, the class
`pglock.prioritize` uses when `periodic=False` (core.py line 604): it fires
the function at most once after the interval; an exception from the
function propagates on the timer thread and is not stored anywhere, and
`cancel()` only stops the timer — it has no `exc` slot and never
re-raises. -/
def timer_exc (_fire : FireOutcome) : Option PyExc := none

/-- `threading.Timer.cancel`: stop the timer; nothing is re-raised. -/
def timer_cancel : Except PyExc Unit := .ok ()

/-- The shutdown of `pglock.prioritize` (core.py lines 604-617): the
background thread is a `_PeriodicTimer` when periodic and a plain
`threading.Timer` otherwise; the `finally` block cancels it, which for the
periodic timer re-raises a captured failure on the owning thread.  Returns
the outcome of the cancellation together with the captured-failure slot
observed at shutdown (a one-shot timer fires at most once). -/
def prioritize_shutdown (periodic : Bool) (fires : List FireOutcome) :
    Except PyExc Unit × Option PyExc :=
  if periodic then
    let exc := periodic_timer_exc fires
    (periodic_timer_cancel exc, exc)
  else
    (timer_cancel, timer_exc (fires.headD .ok))

/-! ## Theorems -/

theorem lock_timeout_enter_ok (t : TimeoutArg) (s : LTState) (old : Option Int) (s1 : LTState)
    (h : lock_timeout_enter t s = .ok (old, s1)) :
    old = s.tl.getD none ∧ ∃ ms, s1 = ⟨some (some ms), some ms⟩ := by
  unfold lock_timeout_enter at h
  cases hm : lock_timeout_ms t with
  | error e => rw [hm] at h; cases h
  | ok ms =>
    rw [hm] at h
    simp only [Except.ok.injEq, Prod.mk.injEq] at h
    exact ⟨h.1.symm, ms, h.2.symm⟩

theorem lock_timeout_exit_restores (s sIn : LTState) (hc : s.consistent) :
    (lock_timeout_exit (s.tl.getD none) false sIn).config = s.config ∧
    (lock_timeout_exit (s.tl.getD none) false sIn).tracked = s.tracked := by
  unfold LTState.consistent LTState.tracked at hc
  cases htl : s.tl with
  | none =>
    rw [htl] at hc
    simp only at hc
    simp [lock_timeout_exit, LTState.tracked, htl, hc]
  | some o =>
    rw [htl] at hc
    cases o with
    | none =>
      simp only at hc
      simp [lock_timeout_exit, LTState.tracked, htl, hc]
    | some x =>
      simp only at hc
      simp [lock_timeout_exit, LTState.tracked, htl, hc]

theorem runNest_preserves (p : Nest) :
    ∀ s s2 : LTState, s.consistent → runNest p s = .ok s2 →
      s2.config = s.config ∧ s2.tracked = s.tracked := by
  induction p with
  | done =>
    intro s s2 _ h
    simp only [runNest] at h
    cases h
    exact ⟨rfl, rfl⟩
  | scope t inner next ih1 ih2 =>
    intro s s2 hc h
    simp only [runNest] at h
    split at h
    · exact absurd h (by simp)
    · rename_i old s1 he
      split at h
      · exact absurd h (by simp)
      · rename_i sIn hi
        obtain ⟨hold, ms, hs1⟩ := lock_timeout_enter_ok t s old s1 he
        have hc1 : s1.consistent := by subst hs1; rfl
        have hmid := ih1 s1 sIn hc1 hi
        have hrest := lock_timeout_exit_restores s sIn hc
        rw [hold] at h
        have hc3 : (lock_timeout_exit (s.tl.getD none) false sIn).consistent := by
          unfold LTState.consistent
          rw [hrest.1, hrest.2]
          exact hc
        have := ih2 _ s2 hc3 h
        exact ⟨this.1.trans hrest.1, this.2.trans hrest.2⟩

/-- Claim C2: for every well-nested sequence of `lock_timeout` scopes
entered and exited in stack order on one thread/session (any nesting
program `Nest`, run from a state where the session setting agrees with the
thread-local bookkeeping, e.g. a fresh session), the session's effective
`lock_timeout` setting after the run equals the setting active before it,
and agreement is preserved.  Because the statement quantifies over every
nesting program, it applies at every inner scope's start state as well:
each inner scope's exit restores exactly the value active immediately
before that scope was entered. -/
theorem C2_lock_timeout_stack_discipline (p : Nest) (s s2 : LTState)
    (hc : s.consistent) (h : runNest p s = .ok s2) :
    s2.config = s.config ∧ s2.consistent := by
  have hp := runNest_preserves p s s2 hc h
  refine ⟨hp.1, ?_⟩
  unfold LTState.consistent
  rw [hp.1, hp.2]
  exact hc

/-- Witness for C2: a five-second scope nesting a three-second scope, run
on a fresh session, restores the default setting. -/
theorem C2_lock_timeout_stack_discipline_witness :
    LTState.consistent ⟨none, none⟩ ∧
    runNest (.scope (.num 5000000) (.scope (.td 3000000) .done .done) .done)
      ⟨none, none⟩ = .ok ⟨some none, none⟩ ∧
    ((⟨some none, none⟩ : LTState).config = (⟨none, none⟩ : LTState).config ∧
      LTState.consistent ⟨some none, none⟩) :=
  ⟨rfl, by decide,
    C2_lock_timeout_stack_discipline
      (.scope (.num 5000000) (.scope (.td 3000000) .done .done) .done)
      ⟨none, none⟩ ⟨some none, none⟩ rfl (by decide)⟩

/-- Claim C3: `advisory_id` is a deterministic pure function.  Integers
pass through unhashed to `(id >> 32, id & 0xFFFFFFFF)` (floor shift and
non-negative residue, Python `int` semantics), with
`advisory_id(9223372036854775807) = (2147483647, 4294967295)`; strings map
through the first 8 bytes of the SHA-256 digest of their UTF-8 encoding
read as a little-endian signed 64-bit integer, so equal strings always
yield the same pair.  The last conjunct checks the embedding against the
repository's own test vector for `"hello"`. -/
theorem C3_advisory_id_deterministic :
    (∀ i : Int, advisory_id (.int i) = .ok (Int.fdiv i 4294967296, Int.emod i 4294967296)) ∧
    advisory_id (.int 9223372036854775807) = .ok (2147483647, 4294967295) ∧
    (∀ s t : String, s = t → advisory_id (.str s) = advisory_id (.str t)) ∧
    (∀ s : String, advisory_id (.str s) =
      .ok (Int.fdiv (intFromBytesLittleSigned ((sha256Bytes (utf8Bytes s)).take 8)) 4294967296,
        Int.emod (intFromBytesLittleSigned ((sha256Bytes (utf8Bytes s)).take 8)) 4294967296)) ∧
    advisory_id (.str "hello") = .ok (245608543, 3125670444) :=
  ⟨fun _ => rfl, by decide, fun s t h => by rw [h], fun _ => rfl, by decide⟩

/-- Witness for C3: the determinism conjunct applied at a concrete string. -/
theorem C3_advisory_id_deterministic_witness :
    advisory_id (.str "pglock") = advisory_id (.str "pglock") :=
  C3_advisory_id_deterministic.2.2.1 "pglock" "pglock" rfl

theorem advisory_xact_check (a : AdvisoryArgs) (inTx : Bool) (hx : a.xact = true → inTx = true) :
    (a.xact && !inTx) = false := by
  cases hax : a.xact
  · rfl
  · rw [hx hax]; rfl

theorem advisory_acquire_err_result (a : AdvisoryArgs) (hasFunc inTx : Bool) (e : PyExc)
    (timeout : Timeout) (lid : LockId) (se : SE) (intId : Int)
    (hc : _cast_timeout a.timeout = .ok timeout)
    (hp : _process_runtime_parameters a hasFunc = .ok (lid, se))
    (hx : a.xact = true → inTx = true)
    (hl : _cast_lock_id lid = .ok intId) :
    (advisory_acquire a hasFunc inTx (.err e)).result =
      if e.isOperational && !(se = .Raise) then .ok false else .error e := by
  have hxf := advisory_xact_check a inTx hx
  simp only [advisory_acquire, hc, hp, hxf, hl, Bool.false_eq_true, if_false]
  split <;> rfl

theorem pglock_model_err_result (m : ModelArgs) (e : PyExc) (timeout : Timeout) (se : SE)
    (hc : _cast_timeout m.timeout = .ok timeout)
    (hse : model_side_effect m.side_effect = some se)
    (hskip : se ≠ .Skip) (ht : m.tables ≠ []) :
    (pglock_model m true (.err e)).result =
      if e.isOperational && (se = .Return) then .ok false else .error e := by
  by_cases ho : e.isOperational = true
  · by_cases hr : se = .Return
    · simp [pglock_model, hc, hse, hskip, ht, ho, hr]
    · simp [pglock_model, hc, hse, hskip, ht, ho, hr]
  · simp [pglock_model, hc, hse, hskip, ht, ho]

/-- Claim C1: for advisory-lock acquires and table-lock requests, only the
backend's lock-wait failure class (Django's `OperationalError`, the error
kind the session contract distinguishes for a wait-timeout expiry) is
converted to a not-acquired/`False` outcome, and only under a policy other
than `Raise`; every backend error of any other class propagates to the
caller regardless of the side-effect policy, and under `Raise` even the
wait-timeout error propagates. -/
theorem C1_policies_govern_only_timeout_errors :
    (∀ (a : AdvisoryArgs) (hasFunc inTx : Bool) (e : PyExc) (timeout : Timeout)
      (lid : LockId) (se : SE) (intId : Int),
      _cast_timeout a.timeout = .ok timeout →
      _process_runtime_parameters a hasFunc = .ok (lid, se) →
      (a.xact = true → inTx = true) →
      _cast_lock_id lid = .ok intId →
      (advisory_acquire a hasFunc inTx (.err e)).result =
        if e.isOperational && !(se = .Raise) then .ok false else .error e) ∧
    (∀ (m : ModelArgs) (e : PyExc) (timeout : Timeout) (se : SE),
      _cast_timeout m.timeout = .ok timeout →
      model_side_effect m.side_effect = some se →
      se ≠ .Skip → m.tables ≠ [] →
      (pglock_model m true (.err e)).result =
        if e.isOperational && (se = .Return) then .ok false else .error e) :=
  ⟨fun a hasFunc inTx e timeout lid se intId hc hp hx hl =>
      advisory_acquire_err_result a hasFunc inTx e timeout lid se intId hc hp hx hl,
    fun m e timeout se hc hse hskip ht =>
      pglock_model_err_result m e timeout se hc hse hskip ht⟩

/-- Witness for C1: a non-`OperationalError` backend failure propagates out
of an advisory acquire under the default `Return` policy, and an
`OperationalError` propagates out of `pglock.model` under `Raise`. -/
theorem C1_policies_govern_only_timeout_errors_witness :
    (advisory_acquire ⟨some (.int 7), false, false, .td 2000000, .unset⟩ false true
        (.err (.otherError "ProgrammingError"))).result =
      .error (.otherError "ProgrammingError") ∧
    (pglock_model ⟨["auth_user"], "ACCESS EXCLUSIVE", .td 2000000, .cls .Raise⟩ true
        (.err (.operationalError "canceling statement due to lock timeout"))).result =
      .error (.operationalError "canceling statement due to lock timeout") := by
  constructor
  · have h := C1_policies_govern_only_timeout_errors.1
      ⟨some (.int 7), false, false, .td 2000000, .unset⟩ false true
      (.otherError "ProgrammingError") (.td 2000000) (.int 7) .Return 7
      (by decide) (by decide) (by decide) (by decide)
    exact h.trans (by decide)
  · have h := C1_policies_govern_only_timeout_errors.2
      ⟨["auth_user"], "ACCESS EXCLUSIVE", .td 2000000, .cls .Raise⟩
      (.operationalError "canceling statement due to lock timeout") (.td 2000000) .Raise
      (by decide) (by decide) (by decide) (by decide)
    exact h.trans (by decide)

theorem advisory_acquire_nowait (a : AdvisoryArgs) (hasFunc inTx : Bool)
    (backend : ExecResult) (timeout : Timeout)
    (hc : _cast_timeout a.timeout = .ok timeout) :
    (advisory_acquire a hasFunc inTx backend).nowait = timeout.isZero := by
  simp only [advisory_acquire, hc]
  repeat' split
  all_goals rfl

theorem advisory_acquire_scope_zero (a : AdvisoryArgs) (hasFunc inTx : Bool)
    (backend : ExecResult) (timeout : Timeout)
    (hc : _cast_timeout a.timeout = .ok timeout) (hz : timeout.isZero = true) :
    (advisory_acquire a hasFunc inTx backend).timeoutScope = false := by
  simp only [advisory_acquire, hc]
  repeat' split
  all_goals simp [hz]

theorem advisory_acquire_sqlUsed (a : AdvisoryArgs) (hasFunc inTx : Bool)
    (backend : ExecResult) (timeout : Timeout) (lid : LockId) (se : SE) (intId : Int)
    (hc : _cast_timeout a.timeout = .ok timeout)
    (hp : _process_runtime_parameters a hasFunc = .ok (lid, se))
    (hx : a.xact = true → inTx = true)
    (hl : _cast_lock_id lid = .ok intId) :
    (advisory_acquire a hasFunc inTx backend).sqlUsed =
      some ("SELECT " ++ advisory_acquire_sql timeout.isZero a.xact a.shared ++
        "(" ++ toString intId ++ ")") := by
  have hxf := advisory_xact_check a inTx hx
  simp only [advisory_acquire, hc, hp, hxf, hl, Bool.false_eq_true, if_false]
  repeat' split
  all_goals rfl

theorem pglock_model_trace_fields (m : ModelArgs) (backend : ExecResult)
    (timeout : Timeout) (se : SE)
    (hc : _cast_timeout m.timeout = .ok timeout)
    (hse : model_side_effect m.side_effect = some se)
    (hskip : se ≠ .Skip) (ht : m.tables ≠ []) :
    (pglock_model m true backend).nowait = timeout.isZero ∧
    (pglock_model m true backend).timeoutScope = (!timeout.isUnset && !timeout.isZero) ∧
    (pglock_model m true backend).sqlUsed =
      some (model_sql m.tables m.mode timeout.isZero) ∧
    (pglock_model m true backend).savepoint = decide (se = SE.Return) := by
  refine ⟨?_, ?_, ?_, ?_⟩ <;>
    (simp only [pglock_model, hc, hse, if_neg hskip, if_neg ht, Bool.not_true,
      Bool.false_eq_true, if_false]
     repeat' split
     all_goals rfl)

/-- Counterexample for C4: an advisory acquire inside a transaction with
the timeout omitted (relying on an ambient `lock_timeout`), under the
default `Return` policy: a wait-timeout failure is converted to a `False`
status, but no savepoint was created and the enclosing transaction is left
in an errored state. -/
theorem C4_counterexample :
    advisory_acquire ⟨some (.int 1), false, false, .unset, .unset⟩ false true
      (.err (.operationalError "canceling statement due to lock timeout")) =
    { result := .ok false, sqlUsed := some "SELECT pg_advisory_lock(1)", nowait := false,
      timeoutScope := false, savepoint := false, erroredAfter := true } := by decide

/-- Claim C4, amended: under a policy other than `Raise` inside a
transaction, a wait-timeout failure of the acquire statement leaves the
enclosing transaction usable exactly when the statement was wrapped in a
savepoint.  `pglock.advisory` wraps only when an explicit timeout (a
duration of at least one millisecond, or `None`) was supplied — with the
timeout omitted no savepoint is created and the failed acquire leaves the
transaction errored — while `pglock.model` under `Return` always wraps and
always leaves the transaction usable. -/
theorem C4_savepoint_only_with_explicit_timeout :
    (∀ (a : AdvisoryArgs) (hasFunc : Bool) (e : PyExc) (timeout : Timeout)
      (lid : LockId) (se : SE) (intId : Int),
      _cast_timeout a.timeout = .ok timeout →
      timeout.isUnset = false → timeout.isZero = false →
      _process_runtime_parameters a hasFunc = .ok (lid, se) →
      se ≠ .Raise →
      _cast_lock_id lid = .ok intId →
      e.isOperational = true →
      (advisory_acquire a hasFunc true (.err e)).savepoint = true ∧
      (advisory_acquire a hasFunc true (.err e)).result = .ok false ∧
      (advisory_acquire a hasFunc true (.err e)).erroredAfter = false) ∧
    (∀ (a : AdvisoryArgs) (hasFunc : Bool) (e : PyExc) (lid : LockId) (se : SE) (intId : Int),
      a.timeout = .unset →
      _process_runtime_parameters a hasFunc = .ok (lid, se) →
      se ≠ .Raise →
      _cast_lock_id lid = .ok intId →
      e.isOperational = true →
      (advisory_acquire a hasFunc true (.err e)).savepoint = false ∧
      (advisory_acquire a hasFunc true (.err e)).result = .ok false ∧
      (advisory_acquire a hasFunc true (.err e)).erroredAfter = true) ∧
    (∀ (m : ModelArgs) (e : PyExc) (timeout : Timeout),
      _cast_timeout m.timeout = .ok timeout →
      model_side_effect m.side_effect = some .Return →
      m.tables ≠ [] →
      e.isOperational = true →
      (pglock_model m true (.err e)).savepoint = true ∧
      (pglock_model m true (.err e)).result = .ok false ∧
      (pglock_model m true (.err e)).erroredAfter = false) := by
  refine ⟨?_, ?_, ?_⟩
  · intro a hasFunc e timeout lid se intId hc hU hZ hp hsr hl ho
    simp [advisory_acquire, hc, hp, hl, hU, hZ, hsr, ho]
  · intro a hasFunc e lid se intId hT hp hsr hl ho
    have hc : _cast_timeout a.timeout = .ok .unset := by rw [hT]; rfl
    simp [advisory_acquire, hc, hp, hl, hsr, ho, Timeout.isUnset, Timeout.isZero]
  · intro m e timeout hc hse ht ho
    simp [pglock_model, hc, hse, ht, ho]

/-- Witness for C4 (amended): a 100 ms explicit timeout inside a
transaction under `Return` — the failed acquire is savepoint-wrapped and
the transaction stays usable; the same for a `pglock.model` call. -/
theorem C4_savepoint_only_with_explicit_timeout_witness :
    ((advisory_acquire ⟨some (.int 1), false, false, .td 100000, .unset⟩ false true
        (.err (.operationalError "canceling statement due to lock timeout"))).savepoint = true ∧
      (advisory_acquire ⟨some (.int 1), false, false, .td 100000, .unset⟩ false true
        (.err (.operationalError "canceling statement due to lock timeout"))).result = .ok false ∧
      (advisory_acquire ⟨some (.int 1), false, false, .td 100000, .unset⟩ false true
        (.err (.operationalError "canceling statement due to lock timeout"))).erroredAfter = false) ∧
    ((pglock_model ⟨["auth_user"], "ACCESS EXCLUSIVE", .td 100000, .unset⟩ true
        (.err (.operationalError "canceling statement due to lock timeout"))).savepoint = true ∧
      (pglock_model ⟨["auth_user"], "ACCESS EXCLUSIVE", .td 100000, .unset⟩ true
        (.err (.operationalError "canceling statement due to lock timeout"))).result = .ok false ∧
      (pglock_model ⟨["auth_user"], "ACCESS EXCLUSIVE", .td 100000, .unset⟩ true
        (.err (.operationalError "canceling statement due to lock timeout"))).erroredAfter = false) :=
  ⟨C4_savepoint_only_with_explicit_timeout.1
      ⟨some (.int 1), false, false, .td 100000, .unset⟩ false
      (.operationalError "canceling statement due to lock timeout") (.td 100000)
      (.int 1) .Return 1 (by decide) (by decide) (by decide) (by decide) (by decide)
      (by decide) (by decide),
    C4_savepoint_only_with_explicit_timeout.2.2
      ⟨["auth_user"], "ACCESS EXCLUSIVE", .td 100000, .unset⟩
      (.operationalError "canceling statement due to lock timeout") (.td 100000)
      (by decide) (by decide) (by decide) (by decide)⟩

/-- Counterexample for C5: an explicit timeout of one microsecond supplied
to `pglock.advisory` is not rejected with a validation error — the acquire
proceeds using the non-blocking `pg_try_advisory_lock` variant (the
zero-wait/Immediate behaviour). -/
theorem C5_counterexample :
    advisory_acquire ⟨some (.int 1), false, false, .td 1, .unset⟩ false false (.ok false) =
    { result := .ok false, sqlUsed := some "SELECT pg_try_advisory_lock(1)", nowait := true,
      timeoutScope := false, savepoint := false, erroredAfter := false } := by decide

/-- Claim C5, amended: only `pglock.lock_timeout` rejects an explicitly
supplied positive duration below one millisecond with a `ValueError`;
`pglock.advisory` and `pglock.model` do not reject it — `_cast_timeout`
collapses it to the zero timedelta, so they silently take the zero-wait
non-blocking path with no session timeout scope installed. -/
theorem C5_submillisecond_rejected_only_by_lock_timeout :
    (∀ u : Int, u < 1000 →
      lock_timeout_ms (.td u) = .error (.valueError
        "Must supply value greater than a millisecond to pglock.timeout or use None to reset the timeout.") ∧
      lock_timeout_ms (.num u) = .error (.valueError
        "Must supply value greater than a millisecond to pglock.timeout or use None to reset the timeout.")) ∧
    (∀ (a : AdvisoryArgs) (hasFunc inTx : Bool) (backend : ExecResult) (u : Int),
      a.timeout = .td u → u < 1000 →
      (advisory_acquire a hasFunc inTx backend).nowait = true ∧
      (advisory_acquire a hasFunc inTx backend).timeoutScope = false) ∧
    (∀ (m : ModelArgs) (backend : ExecResult) (se : SE) (u : Int),
      m.timeout = .td u → u < 1000 →
      model_side_effect m.side_effect = some se →
      se ≠ .Skip → m.tables ≠ [] →
      (pglock_model m true backend).nowait = true ∧
      (pglock_model m true backend).timeoutScope = false) := by
  refine ⟨?_, ?_, ?_⟩
  · intro u hu
    constructor <;> simp [lock_timeout_ms, _cast_timeout, hu]
  · intro a hasFunc inTx backend u hT hu
    have hc : _cast_timeout a.timeout = .ok (.td 0) := by
      rw [hT]; simp [_cast_timeout, hu]
    have hz : Timeout.isZero (.td 0) = true := by decide
    exact ⟨(advisory_acquire_nowait a hasFunc inTx backend (.td 0) hc).trans hz,
      advisory_acquire_scope_zero a hasFunc inTx backend (.td 0) hc hz⟩
  · intro m backend se u hT hu hse hskip ht
    have hc : _cast_timeout m.timeout = .ok (.td 0) := by
      rw [hT]; simp [_cast_timeout, hu]
    have hf := pglock_model_trace_fields m backend (.td 0) se hc hse hskip ht
    refine ⟨hf.1.trans (by decide), hf.2.1.trans (by decide)⟩

/-- Witness for C5 (amended): one microsecond is rejected by
`pglock.lock_timeout` and coerced to the non-blocking path by
`pglock.advisory` and `pglock.model`. -/
theorem C5_submillisecond_rejected_only_by_lock_timeout_witness :
    lock_timeout_ms (.td 1) = .error (.valueError
      "Must supply value greater than a millisecond to pglock.timeout or use None to reset the timeout.") ∧
    (advisory_acquire ⟨some (.int 1), false, false, .td 1, .unset⟩ false false
      (.ok false)).nowait = true ∧
    (pglock_model ⟨["auth_user"], "ACCESS EXCLUSIVE", .td 1, .unset⟩ true
      (.ok true)).nowait = true :=
  ⟨(C5_submillisecond_rejected_only_by_lock_timeout.1 1 (by decide)).1,
    (C5_submillisecond_rejected_only_by_lock_timeout.2.1
      ⟨some (.int 1), false, false, .td 1, .unset⟩ false false (.ok false) 1
      (by decide) (by decide)).1,
    (C5_submillisecond_rejected_only_by_lock_timeout.2.2
      ⟨["auth_user"], "ACCESS EXCLUSIVE", .td 1, .unset⟩ (.ok true) .Return 1
      (by decide) (by decide) (by decide) (by decide) (by decide)).1⟩

/-- Claim C6: an explicit zero timeout makes the acquisition use the
backend's non-blocking statement variant — `pg_try_advisory...` for
advisory locks and `LOCK TABLE ... NOWAIT` for table locks — and installs
no session-level `lock_timeout` scope for the attempt. -/
theorem C6_zero_timeout_nonblocking :
    (∀ (a : AdvisoryArgs) (hasFunc inTx : Bool) (backend : ExecResult)
      (lid : LockId) (se : SE) (intId : Int),
      _cast_timeout a.timeout = .ok (.td 0) →
      _process_runtime_parameters a hasFunc = .ok (lid, se) →
      (a.xact = true → inTx = true) →
      _cast_lock_id lid = .ok intId →
      (advisory_acquire a hasFunc inTx backend).nowait = true ∧
      (advisory_acquire a hasFunc inTx backend).timeoutScope = false ∧
      (advisory_acquire a hasFunc inTx backend).sqlUsed =
        some ("SELECT " ++ advisory_acquire_sql true a.xact a.shared ++
          "(" ++ toString intId ++ ")")) ∧
    (∀ x s : Bool, ∃ suffix, advisory_acquire_sql true x s = "pg_try_advisory" ++ suffix) ∧
    (∀ (m : ModelArgs) (backend : ExecResult) (se : SE),
      _cast_timeout m.timeout = .ok (.td 0) →
      model_side_effect m.side_effect = some se →
      se ≠ .Skip → m.tables ≠ [] →
      (pglock_model m true backend).nowait = true ∧
      (pglock_model m true backend).timeoutScope = false ∧
      (pglock_model m true backend).sqlUsed = some (model_sql m.tables m.mode true)) ∧
    (∀ (tables : List String) (mode : String),
      ∃ p, model_sql tables mode true = p ++ "NOWAIT") := by
  refine ⟨?_, ?_, ?_, ?_⟩
  · intro a hasFunc inTx backend lid se intId hc hp hx hl
    have hz : Timeout.isZero (.td 0) = true := by decide
    refine ⟨(advisory_acquire_nowait a hasFunc inTx backend (.td 0) hc).trans hz,
      advisory_acquire_scope_zero a hasFunc inTx backend (.td 0) hc hz, ?_⟩
    have hs := advisory_acquire_sqlUsed a hasFunc inTx backend (.td 0) lid se intId hc hp hx hl
    simpa using hs
  · intro x s
    cases x <;> cases s
    · exact ⟨"_lock", by decide⟩
    · exact ⟨"_lock_shared", by decide⟩
    · exact ⟨"_xact_lock", by decide⟩
    · exact ⟨"_xact_lock_shared", by decide⟩
  · intro m backend se hc hse hskip ht
    have hf := pglock_model_trace_fields m backend (.td 0) se hc hse hskip ht
    refine ⟨hf.1.trans (by decide), hf.2.1.trans (by decide), ?_⟩
    have := hf.2.2.1
    simpa using this
  · intro tables mode
    exact ⟨"LOCK TABLE " ++ String.intercalate ", "
      (tables.map fun t => "\x22" ++ t ++ "\x22") ++ " IN " ++ mode ++ " MODE ",
      by simp [model_sql]⟩

/-- Witness for C6: a zero-timeout advisory acquire and table lock. -/
theorem C6_zero_timeout_nonblocking_witness :
    (advisory_acquire ⟨some (.int 5), false, false, .td 0, .unset⟩ false false
      (.ok true)).sqlUsed = some "SELECT pg_try_advisory_lock(5)" ∧
    (pglock_model ⟨["auth_user"], "ACCESS EXCLUSIVE", .num 0, .unset⟩ true
      (.ok true)).sqlUsed = some "LOCK TABLE \x22auth_user\x22 IN ACCESS EXCLUSIVE MODE NOWAIT" := by
  constructor
  · have h := (C6_zero_timeout_nonblocking.1
      ⟨some (.int 5), false, false, .td 0, .unset⟩ false false (.ok true)
      (.int 5) .Return 5 (by decide) (by decide) (by decide) (by decide)).2.2
    exact h.trans (by decide)
  · have h := (C6_zero_timeout_nonblocking.2.2.1
      ⟨["auth_user"], "ACCESS EXCLUSIVE", .num 0, .unset⟩ (.ok true) .Return
      (by decide) (by decide) (by decide) (by decide)).2.2
    exact h.trans (by decide)

theorem advisory_acquire_raise_never_false (a : AdvisoryArgs) (hasFunc inTx : Bool)
    (backend : ExecResult) (lid : LockId)
    (hp : _process_runtime_parameters a hasFunc = .ok (lid, .Raise)) :
    (advisory_acquire a hasFunc inTx backend).result ≠ .ok false := by
  simp only [advisory_acquire, hp]
  repeat' split
  all_goals simp_all

/-- Claim C7: every advisory acquire has exactly one of three outcomes —
a truthy status, a falsy status, or a raised exception; under the `Raise`
policy the falsy outcome is impossible (a non-blocking attempt that
observes "not acquired" raises instead of returning `False`), so no
execution path both returns a falsy status and raises. -/
theorem C7_acquire_outcome_trichotomy :
    (∀ (a : AdvisoryArgs) (hasFunc inTx : Bool) (backend : ExecResult),
      (advisory_acquire a hasFunc inTx backend).result = .ok true ∨
      (advisory_acquire a hasFunc inTx backend).result = .ok false ∨
      ∃ e, (advisory_acquire a hasFunc inTx backend).result = .error e) ∧
    (∀ (a : AdvisoryArgs) (hasFunc inTx : Bool) (backend : ExecResult) (lid : LockId),
      _process_runtime_parameters a hasFunc = .ok (lid, .Raise) →
      (advisory_acquire a hasFunc inTx backend).result ≠ .ok false) ∧
    (∀ (a : AdvisoryArgs) (hasFunc inTx : Bool) (lid : LockId) (intId : Int),
      _cast_timeout a.timeout = .ok (.td 0) →
      _process_runtime_parameters a hasFunc = .ok (lid, .Raise) →
      (a.xact = true → inTx = true) →
      _cast_lock_id lid = .ok intId →
      (advisory_acquire a hasFunc inTx (.ok false)).result =
        .error (.operationalError "Could not acquire lock")) := by
  refine ⟨?_, ?_, ?_⟩
  · intro a hasFunc inTx backend
    cases h : (advisory_acquire a hasFunc inTx backend).result with
    | ok v =>
      cases v
      · exact Or.inr (Or.inl rfl)
      · exact Or.inl rfl
    | error e => exact Or.inr (Or.inr ⟨e, rfl⟩)
  · intro a hasFunc inTx backend lid hp
    exact advisory_acquire_raise_never_false a hasFunc inTx backend lid hp
  · intro a hasFunc inTx lid intId hc hp hx hl
    have hxf := advisory_xact_check a inTx hx
    simp [advisory_acquire, hc, hp, hxf, hl, Timeout.isZero]

/-- Witness for C7: under `Raise`, a wait-timeout error does not yield a
falsy status, and a non-blocking attempt observing "not acquired"
raises. -/
theorem C7_acquire_outcome_trichotomy_witness :
    (advisory_acquire ⟨some (.int 9), false, false, .unset, .cls .Raise⟩ false false
      (.err (.operationalError "canceling statement due to lock timeout"))).result ≠
      .ok false ∧
    (advisory_acquire ⟨some (.int 9), false, false, .td 0, .cls .Raise⟩ false false
      (.ok false)).result = .error (.operationalError "Could not acquire lock") :=
  ⟨C7_acquire_outcome_trichotomy.2.1
      ⟨some (.int 9), false, false, .unset, .cls .Raise⟩ false false
      (.err (.operationalError "canceling statement due to lock timeout")) (.int 9)
      (by decide),
    C7_acquire_outcome_trichotomy.2.2
      ⟨some (.int 9), false, false, .td 0, .cls .Raise⟩ false false (.int 9) 9
      (by decide) (by decide) (by decide) (by decide)⟩

/-- Claim C8: a scope that successfully acquired a non-transaction-scoped
(`xact=False`) advisory lock issues exactly the matching release call
(`pg_advisory_unlock[_shared]`, the `_shared` suffix driven by the same
`shared` flag as the acquire) on scope exit — the exit path runs for a
normal and an exceptional body outcome alike; a transaction-scoped
(`xact=True`) handle is never released by scope exit, and calling
`release()` on it fails with a `RuntimeError`. -/
theorem C8_release_on_scope_exit :
    (∀ (a : AdvisoryArgs) (inTx : Bool) (backend : ExecResult) (body : BodyOutcome)
      (lid : LockId) (se : SE) (intId : Int),
      _process_runtime_parameters a false = .ok (lid, se) →
      _cast_lock_id lid = .ok intId →
      a.xact = false →
      advisory_enter a false inTx backend = .ok true →
      (advisory_scope a inTx backend body).releaseCalls =
        [advisory_release_sql a.shared intId]) ∧
    (∀ (a : AdvisoryArgs) (inTx : Bool) (backend : ExecResult) (body : BodyOutcome),
      a.xact = true → (advisory_scope a inTx backend body).releaseCalls = []) ∧
    (∀ (a : AdvisoryArgs) (intId : Int), a.xact = true →
      advisory_release a intId =
        .error (.runtimeError "Advisory locks with xact=True cannot be manually released.")) := by
  refine ⟨?_, ?_, ?_⟩
  · intro a inTx backend body lid se intId hp hl hxa he
    simp [advisory_scope, he, hxa, hp, hl]
  · intro a inTx backend body hxa
    cases he : advisory_enter a false inTx backend with
    | error e => simp [advisory_scope, he]
    | ok acq => simp [advisory_scope, he, hxa]
  · intro a intId hxa
    simp [advisory_release, hxa]

/-- Witness for C8: a shared, non-transaction-scoped lock acquired in a
scope whose body raises is still released with the `_shared` variant, and
`release()` on an `xact=True` handle raises. -/
theorem C8_release_on_scope_exit_witness :
    (advisory_scope ⟨some (.int 42), true, false, .unset, .unset⟩ false (.ok true)
      (.raises (.otherError "boom"))).releaseCalls =
      [advisory_release_sql true 42] ∧
    advisory_release ⟨some (.int 42), false, true, .unset, .unset⟩ 42 =
      .error (.runtimeError "Advisory locks with xact=True cannot be manually released.") :=
  ⟨C8_release_on_scope_exit.1
      ⟨some (.int 42), true, false, .unset, .unset⟩ false (.ok true)
      (.raises (.otherError "boom")) (.int 42) .Return 42
      (by decide) (by decide) (by decide) (by decide),
    C8_release_on_scope_exit.2.2 ⟨some (.int 42), false, true, .unset, .unset⟩ 42 (by decide)⟩

/-- Counterexample for C9: a one-shot (non-periodic) prioritize watcher
whose corrective action raises during its single firing — the failure is
not captured and cancellation at the end of the protected section returns
normally instead of re-raising it. -/
theorem C9_counterexample :
    prioritize_shutdown false [.raises (.valueError "Unsupported lookup duration_gte")] =
      (.ok (), none) := by decide

/-- Claim C9, amended: only the periodic prioritize watcher captures a
corrective-action failure — the firing loop stops at the first exception,
stores it, and cancellation re-raises it to the owning thread as
`RuntimeError("Exception raised in side effect")`; the one-shot
(non-periodic) watcher uses the plain `threading.Timer`, which captures
nothing, so its cancellation never re-raises a firing failure. -/
theorem C9_watcher_failure_capture :
    (∀ (n : Nat) (e : PyExc) (rest : List FireOutcome),
      periodic_timer_exc (List.replicate n .ok ++ .raises e :: rest) = some e) ∧
    (∀ (fires : List FireOutcome) (e : PyExc),
      periodic_timer_exc fires = some e →
      prioritize_shutdown true fires =
        (.error (.runtimeError "Exception raised in side effect"), some e)) ∧
    (∀ fires : List FireOutcome,
      periodic_timer_exc fires = none →
      prioritize_shutdown true fires = (.ok (), none)) ∧
    (∀ f : FireOutcome, prioritize_shutdown false [f] = (.ok (), none)) := by
  refine ⟨?_, ?_, ?_, ?_⟩
  · intro n e rest
    induction n with
    | zero => rfl
    | succ k ih => simpa [List.replicate_succ, periodic_timer_exc] using ih
  · intro fires e h
    simp [prioritize_shutdown, h, periodic_timer_cancel]
  · intro fires h
    simp [prioritize_shutdown, h, periodic_timer_cancel]
  · intro f
    rfl

/-- Witness for C9 (amended): the periodic watcher captures the failure of
the second firing and re-raises at cancellation; the one-shot watcher does
not. -/
theorem C9_watcher_failure_capture_witness :
    periodic_timer_exc (List.replicate 1 .ok ++
      .raises (.valueError "Unsupported lookup duration_gte") :: []) =
      some (.valueError "Unsupported lookup duration_gte") ∧
    prioritize_shutdown true [.ok, .raises (.valueError "Unsupported lookup duration_gte")] =
      (.error (.runtimeError "Exception raised in side effect"),
        some (.valueError "Unsupported lookup duration_gte")) ∧
    prioritize_shutdown false [.raises (.valueError "Unsupported lookup duration_gte")] =
      (.ok (), none) :=
  ⟨C9_watcher_failure_capture.1 1 (.valueError "Unsupported lookup duration_gte") [],
    C9_watcher_failure_capture.2.1
      [.ok, .raises (.valueError "Unsupported lookup duration_gte")]
      (.valueError "Unsupported lookup duration_gte") (by decide),
    C9_watcher_failure_capture.2.2.2 (.raises (.valueError "Unsupported lookup duration_gte"))⟩

/-- Claim C10: when `pglock.advisory` is used as a decorator with the
`Skip` side effect and the lock is not acquired, the decorated call
evaluates to `None` (the wrapped function is not invoked); in every other
decorator configuration in which the wrapped function runs, the decorated
call returns exactly the wrapped function's return value. -/
theorem C10_decorator_skip_returns_none :
    ∀ {α : Type} (a : AdvisoryArgs) (inTx : Bool) (backend : ExecResult) (v : α)
      (lid : LockId) (se : SE) (acq : Bool),
      _process_runtime_parameters a true = .ok (lid, se) →
      advisory_enter a true inTx backend = .ok acq →
      ((se = .Skip ∧ acq = false) → advisory_decorated a inTx backend v = .ok none) ∧
      (¬(se = .Skip ∧ acq = false) → advisory_decorated a inTx backend v = .ok (some v)) := by
  intro α a inTx backend v lid se acq hp he
  constructor
  · rintro ⟨hs, hacq⟩
    subst hs hacq
    simp [advisory_decorated, he, hp]
  · intro hn
    simp only [advisory_decorated, he, hp]
    cases acq
    · have hs : se ≠ .Skip := fun h => hn ⟨h, rfl⟩
      simp [hs]
    · simp

/-- Witness for C10: a `Skip` decorator whose non-blocking acquire fails
returns `None`; the same decorator with a successful acquire returns the
wrapped function's value. -/
theorem C10_decorator_skip_returns_none_witness :
    advisory_decorated ⟨some (.int 3), false, false, .td 0, .cls .Skip⟩ false
      (.ok false) (7 : Nat) = .ok none ∧
    advisory_decorated ⟨some (.int 3), false, false, .td 0, .cls .Skip⟩ false
      (.ok true) (7 : Nat) = .ok (some 7) :=
  ⟨(C10_decorator_skip_returns_none
      ⟨some (.int 3), false, false, .td 0, .cls .Skip⟩ false (.ok false) (7 : Nat)
      (.int 3) .Skip false (by decide) (by decide)).1 (by decide),
    (C10_decorator_skip_returns_none
      ⟨some (.int 3), false, false, .td 0, .cls .Skip⟩ false (.ok true) (7 : Nat)
      (.int 3) .Skip true (by decide) (by decide)).2 (by decide)⟩

end Pglock
